import Mathlib

/-!
Verification development for the voice-transcription-amocrm service.

The definitions below are a shallow embedding of the decision logic of the
repository: the in-memory idempotency guard (`main.py::is_already_processed`,
`automations/geodesist_notification/handler.py::_dedup`), the speaker-role
classifier (`services/transcription.py::TranscriptionService.identify_roles`),
the contact-to-deal resolution
(`services/amocrm.py::AmoCRMService.get_active_lead_for_contact` and
`get_or_create_lead_for_contact`) and the per-call pipeline orchestration
(`main.py::process_call`).  External HTTP collaborators are modelled as
oracles supplied in an environment record; machine state that the Python
code mutates (the dedup sets) is passed explicitly.
-/

namespace VoiceTranscription

/-! ## Idempotency guard

`main.py::is_already_processed` keeps a process-wide `set` of seen keys under
a lock.  The body, run atomically: if the key is in the set, return `True`;
otherwise, if the set size exceeds the capacity, clear the whole set; then
add the key and return `False`.  `main.py` uses capacity 1000,
`handler.py::_dedup` uses the same body with capacity 5000. -/

/-- One atomic call of the guard with capacity `cap`: returns the boolean
result (`true` = already seen, skip) and the new key set. -/
def checkAndMark (cap : Nat) (s : Finset String) (k : String) :
    Bool × Finset String :=
  if k ∈ s then (true, s)
  else if cap < s.card then (false, {k})
  else (false, insert k s)

/-- `main.py::is_already_processed`: capacity 1000, keyed by recording URL. -/
def isAlreadyProcessed (s : Finset String) (k : String) : Bool × Finset String :=
  checkAndMark 1000 s k

/-- `handler.py::_dedup`: capacity 5000, keyed by lead id + geodesist. -/
def geodesistDedup (s : Finset String) (k : String) : Bool × Finset String :=
  checkAndMark 5000 s k

/-- Folding a sequence of guard calls from the initial empty set. -/
def dedupRun (cap : Nat) (ks : List String) : Finset String :=
  ks.foldl (fun s k => (checkAndMark cap s k).2) ∅

/-! ## Speaker-role classifier

`services/transcription.py::TranscriptionService.identify_roles`. -/

/-- `transcription.py::Speaker`: one diarized utterance. -/
structure Speaker where
  label : String
  text : String
  start_ms : Nat
  end_ms : Nat
  deriving Repr, DecidableEq

/-- Python `str.lower()` restricted to the alphabets the keyword lists use:
ASCII letters and the Russian Cyrillic block (А..Я and Ё). -/
def ruLowerChar (c : Char) : Char :=
  if 0x41 ≤ c.toNat ∧ c.toNat ≤ 0x5A then Char.ofNat (c.toNat + 32)
  else if 0x410 ≤ c.toNat ∧ c.toNat ≤ 0x42F then Char.ofNat (c.toNat + 32)
  else if c.toNat = 0x401 then Char.ofNat 0x451
  else c

/-- Case-fold a string (model of Python `.lower()`). -/
def ruLower (s : String) : String :=
  String.mk (s.data.map ruLowerChar)

/-- Does `hay` start with `needle`? -/
def startsWithL : List Char → List Char → Bool
  | [], _ => true
  | _ :: _, [] => false
  | a :: as, b :: bs => a == b && startsWithL as bs

/-- Does `needle` occur contiguously inside `hay`?  (Python `needle in hay`.) -/
def occursIn (needle : List Char) : List Char → Bool
  | [] => needle.isEmpty
  | c :: t => startsWithL needle (c :: t) || occursIn needle t

/-- Python `ind in full_text` on strings. -/
def strContains (hay needle : String) : Bool :=
  occursIn needle.data hay.data

/-- `manager_indicators` from `identify_roles`. -/
def managerIndicators : List String :=
  ["добрый день", "здравствуйте", "компания", "меня зовут",
   "чем могу помочь", "по поводу вашей заявки", "вы оставляли",
   "давайте", "предлагаю", "стоимость", "цена будет"]

/-- `client_indicators` from `identify_roles`. -/
def clientIndicators : List String :=
  ["мне нужно", "хочу", "интересует", "сколько стоит",
   "какая цена", "можете сделать", "когда сможете"]

/-- Number of indicator phrases contained in the text
(`sum(1 for ind in indicators if ind in full_text)`). -/
def scoreOf (indicators : List String) (t : String) : Nat :=
  (indicators.filter (fun i => strContains t i)).length

/-- Distinct speaker labels in order of first appearance (the iteration
order of the Python dict `speaker_texts`). -/
def speakerLabels (speakers : List Speaker) : List String :=
  speakers.foldl (fun acc sp => if sp.label ∈ acc then acc else acc ++ [sp.label]) []

/-- The case-folded utterance texts of one label, in order
(`speaker_texts[label]`). -/
def textsFor (speakers : List Speaker) (l : String) : List String :=
  (speakers.filter (fun sp => sp.label == l)).map (fun sp => ruLower sp.text)

/-- `full_text = " ".join(texts)` for one label. -/
def joinedTextFor (speakers : List Speaker) (l : String) : String :=
  String.intercalate " " (textsFor speakers l)

/-- `manager_score` of one label. -/
def managerScore (speakers : List Speaker) (l : String) : Nat :=
  scoreOf managerIndicators (joinedTextFor speakers l)

/-- `client_score` of one label. -/
def clientScore (speakers : List Speaker) (l : String) : Nat :=
  scoreOf clientIndicators (joinedTextFor speakers l)

/-- The role the keyword scoring gives one label:
`"Менеджер" if manager_score > client_score else "Клиент"`. -/
def scoredRoleOf (speakers : List Speaker) (l : String) : String :=
  if clientScore speakers l < managerScore speakers l then "Менеджер" else "Клиент"

/-- The `roles` dict after the scoring loop, as an association list in the
label insertion order. -/
def scoredRoles (speakers : List Speaker) : List (String × String) :=
  (speakerLabels speakers).map (fun l => (l, scoredRoleOf speakers l))

/-- Code-point lexicographic order on strings (Python `sorted` on `str`). -/
def charListLt : List Char → List Char → Bool
  | [], [] => false
  | [], _ :: _ => true
  | _ :: _, [] => false
  | a :: as, b :: bs =>
    if a.toNat < b.toNat then true
    else if b.toNat < a.toNat then false
    else charListLt as bs

/-- String comparison used when sorting the two labels. -/
def strLt (a b : String) : Bool :=
  charListLt a.data b.data

/-- The override block: `labels = sorted(roles.keys())`, then
`roles[labels[0]] = "Менеджер"; roles[labels[1]] = "Клиент"`.  Dict update
keeps insertion order of the keys. -/
def applyOverride (roles : List (String × String)) : List (String × String) :=
  match roles with
  | [(l1, _), (l2, _)] =>
    if strLt l2 l1 then [(l1, "Клиент"), (l2, "Менеджер")]
    else [(l1, "Менеджер"), (l2, "Клиент")]
  | rs => rs

/-- `TranscriptionService.identify_roles`: keyword scoring per label, then,
when there are exactly two labels and the scoring did not mark exactly one
manager, the alphabetical override. -/
def identifyRoles (speakers : List Speaker) : List (String × String) :=
  let roles := scoredRoles speakers
  if roles.length = 2 ∧ (roles.map Prod.snd).count "Менеджер" ≠ 1 then
    applyOverride roles
  else roles

/-! ## Contact-to-deal resolution

`services/amocrm.py::AmoCRMService.get_active_lead_for_contact` and
`get_or_create_lead_for_contact`.  The CRM's responses are modelled as an
oracle record: `links` is the list of lead ids linked to the contact, in the
order the link-listing endpoint returns them; `status id` is the result of
`GET /leads/{id}` (`none` models both an exception and a non-200 answer,
which the loop treats identically: log and continue); `contact` is the
result of `get_contact` (`none` models the exception `get_contact`
re-raises); `createResult` is the result of `create_lead_for_contact`
(`none` models a 400 answer or an exception, both swallowed into `None`). -/

/-- Oracle for the CRM responses seen while resolving one contact. -/
structure CRM where
  linksOk : Bool
  links : List Nat
  status : Nat → Option Nat
  contact : Option String
  createResult : Option Nat

/-- `CLOSED_STATUSES` from `get_active_lead_for_contact`: 142 = won,
143 = lost. -/
def CLOSED_STATUSES : List Nat := [142, 143]

/-- Is the fetched status of `id` known and open? -/
def statusOpen (crm : CRM) (id : Nat) : Bool :=
  match crm.status id with
  | some sid => decide (sid ∉ CLOSED_STATUSES)
  | none => false

/-- The linked leads whose status fetch succeeded with an open status, in
listing order. -/
def openLinks (crm : CRM) : List Nat :=
  crm.links.filter (statusOpen crm)

/-- The `for lead_id in lead_ids` loop of `get_active_lead_for_contact`:
return the first lead whose fetched status is open; a failed or non-200
status fetch skips that lead and the loop continues. -/
def firstActive (crm : CRM) : List Nat → Option Nat
  | [] => none
  | id :: rest =>
    match crm.status id with
    | some sid => if sid ∈ CLOSED_STATUSES then firstActive crm rest else some id
    | none => firstActive crm rest

/-- `AmoCRMService.get_active_lead_for_contact`: on a links-listing failure
the surrounding `except` returns `None`; otherwise scan the linked leads.
(The `if not lead_ids: return None` early exit coincides with scanning the
empty list.) -/
def get_active_lead_for_contact (crm : CRM) : Option Nat :=
  if crm.linksOk then firstActive crm crm.links else none

/-- `AmoCRMService.get_or_create_lead_for_contact`, paired with the number
of deal-creation (`POST /leads`) calls it performs.  `Except.error` models
the exception that `get_contact` re-raises propagating out (that method has
no `try` of its own). -/
def get_or_create_lead_for_contact (crm : CRM) :
    Except Unit (Option Nat × Nat) :=
  match get_active_lead_for_contact crm with
  | some id => Except.ok (some id, 0)
  | none =>
    match crm.contact with
    | none => Except.error ()
    | some _ => Except.ok (crm.createResult, 1)

/-! ## Pipeline orchestration

`main.py::process_call`.  Every external collaborator call is an oracle
field of `Env`; the result record reports the terminal outcome together
with which collaborators were invoked, mirroring the call-count assertions
of the spec's test plan.  A `failed` outcome models an exception reaching
the outer `try` of `process_call` (which logs and swallows it); the abort
outcomes model the plain `return` statements. -/

/-- `transcription.py::TranscriptionResult`, the fields `process_call`
consumes. -/
structure Transcript where
  full_text : String
  speakers : List Speaker
  duration_seconds : Nat
  deriving Repr, DecidableEq

/-- Oracle environment for one `process_call` run. -/
structure Env where
  alreadyProcessed : Bool
  isContact : Bool
  entityId : Nat
  crm : CRM
  urlUploaded : Bool
  download : Option Nat
  transcribe : Option Transcript
  analysisOk : Bool
  noteOk : Bool

/-- Terminal outcome of one run. -/
inductive Outcome
  | dupSkip
  | resolutionNoLead
  | uploadedUrl
  | abortSmallAudio
  | abortShortTranscript
  | failed (stage : String)
  | completed
  deriving Repr, DecidableEq

/-- Observable result of one run: terminal outcome, the deal the note is
aimed at, and which side effects happened. -/
structure RunResult where
  outcome : Outcome
  targetLead : Option Nat
  createCalls : Nat
  transcribeCalled : Bool
  rolesAssigned : Bool
  noteWritten : Bool
  notificationSent : Bool
  reachedPersisted : Bool
  reachedNotified : Bool
  deriving Repr, DecidableEq

/-- The methods `services/telegram.py::TelegramService` defines. -/
def telegramMethods : List String :=
  ["send_message", "send_error", "send_success", "send_startup", "send_shutdown"]

/-- The attribute `main.py::process_call` looks up on `telegram_service` at
its notification step.  In Python the lookup raises `AttributeError` when
the method is not defined on the service. -/
def notifyMethodName : String := "send_call_analysis"

/-- The contact-resolution prologue of `process_call` (its `entity_type in
["contact", "contacts"]` branch): `get_contact` first (raising on failure),
then `get_or_create_lead_for_contact`, then the `found_lead and found_lead
!= entity_id` guard.  Returns the lead to annotate or the early terminal
outcome, together with the number of deal-creation calls performed. -/
def resolveTarget (env : Env) : Except Outcome Nat × Nat :=
  if env.isContact then
    match env.crm.contact with
    | none => (Except.error (Outcome.failed "resolution"), 0)
    | some _ =>
      match get_or_create_lead_for_contact env.crm with
      | Except.error _ => (Except.error (Outcome.failed "resolution"), 0)
      | Except.ok (found, c) =>
        match found with
        | some id =>
          if id = env.entityId then (Except.error Outcome.resolutionNoLead, c)
          else (Except.ok id, c)
        | none => (Except.error Outcome.resolutionNoLead, c)
  else (Except.ok env.entityId, 0)

/-- Result record shared by all early exits. -/
def baseResult : RunResult :=
  { outcome := Outcome.dupSkip, targetLead := none, createCalls := 0,
    transcribeCalled := false, rolesAssigned := false, noteWritten := false,
    notificationSent := false, reachedPersisted := false,
    reachedNotified := false }

/-- `main.py::process_call`: dedup guard, resolution, download with the
10000-byte gate, transcription with the 50-character gate, role
assignment, analysis, note persistence, then the Telegram notification
step, which only succeeds if the method `process_call` invokes actually
exists on `TelegramService`. -/
def process_call (env : Env) : RunResult :=
  if env.alreadyProcessed then baseResult
  else
    let rc := resolveTarget env
    match rc.1 with
    | Except.error o => { baseResult with outcome := o, createCalls := rc.2 }
    | Except.ok leadId =>
      let b1 := { baseResult with targetLead := some leadId, createCalls := rc.2 }
      if env.urlUploaded then { b1 with outcome := Outcome.uploadedUrl }
      else
        match env.download with
        | none => { b1 with outcome := Outcome.failed "download" }
        | some nbytes =>
          if nbytes < 10000 then { b1 with outcome := Outcome.abortSmallAudio }
          else
            match env.transcribe with
            | none =>
              { b1 with outcome := Outcome.failed "transcribe",
                        transcribeCalled := true }
            | some t =>
              let b2 := { b1 with transcribeCalled := true }
              if t.full_text.length < 50 then
                { b2 with outcome := Outcome.abortShortTranscript }
              else
                let b3 := { b2 with rolesAssigned := true }
                if env.analysisOk then
                  if env.noteOk then
                    let b4 := { b3 with noteWritten := true,
                                        reachedPersisted := true }
                    if telegramMethods.contains notifyMethodName then
                      { b4 with outcome := Outcome.completed,
                                notificationSent := true,
                                reachedNotified := true }
                    else { b4 with outcome := Outcome.failed "notify" }
                  else { b3 with outcome := Outcome.failed "persist" }
                else { b3 with outcome := Outcome.failed "analysis" }

/-! ## Concrete scenario data -/

/-- Two speakers: "A" utters a greeting plus a price offer, "B" a need
statement. -/
def exC8 : List Speaker :=
  [⟨"A", "Здравствуйте, меня зовут Андрей. Стоимость будет 20000 рублей", 0, 5000⟩,
   ⟨"B", "Мне нужно провести межевание участка", 6000, 9000⟩]

/-- Two speakers with identical role-neutral text; label "B" speaks first
(earliest start time), label "A" second. -/
def exC4 : List Speaker :=
  [⟨"B", "привет", 0, 100⟩, ⟨"A", "привет", 200, 300⟩]

/-- Contact linked to deals with statuses `[open, closed, closed]`. -/
def crmOpenMix : CRM :=
  { linksOk := true, links := [11, 12, 13],
    status := fun id =>
      if id = 11 then some 100
      else if id = 12 then some 142
      else if id = 13 then some 143 else none,
    contact := some "Пётр", createResult := some 9002 }

/-- Contact linked only to closed deals `[closed, closed]`. -/
def crmAllClosed : CRM :=
  { linksOk := true, links := [21, 22],
    status := fun id =>
      if id = 21 then some 142 else if id = 22 then some 143 else none,
    contact := some "Пётр", createResult := some 9002 }

/-- End-to-end scenario contact `#501`: one closed deal `#9001`
(status 143 = lost), deal creation yields `#9002`. -/
def crmE2E : CRM :=
  { linksOk := true, links := [9001],
    status := fun id => if id = 9001 then some 143 else none,
    contact := some "Иван", createResult := some 9002 }

/-- The links listing itself fails, although an open deal is linked. -/
def crmLinksFail : CRM :=
  { linksOk := false, links := [9001],
    status := fun _ => some 100,
    contact := some "Иван", createResult := some 9002 }

/-- Every per-deal status fetch fails. -/
def crmAllFetchFail : CRM :=
  { linksOk := true, links := [31],
    status := fun _ => none,
    contact := some "Иван", createResult := some 9003 }

/-- The contact itself cannot be read. -/
def crmContactFail : CRM :=
  { linksOk := true, links := [],
    status := fun _ => none,
    contact := none, createResult := some 9002 }

/-- A 600-character transcript text. -/
def e2eText : String := String.mk (List.replicate 600 'а')

/-- The end-to-end transcript: 600 characters, two speakers. -/
def e2eTranscript : Transcript :=
  { full_text := e2eText, speakers := exC8, duration_seconds := 213 }

/-- The end-to-end environment: contact event for `#501`, sufficient audio
(42600 bytes), all collaborators succeed. -/
def e2eEnv : Env :=
  { alreadyProcessed := false, isContact := true, entityId := 501,
    crm := crmE2E, urlUploaded := false, download := some 42600,
    transcribe := some e2eTranscript, analysisOk := true, noteOk := true }

/-- End-to-end environment but the links listing fails. -/
def envLinksFail : Env := { e2eEnv with crm := crmLinksFail }

/-- End-to-end environment but the contact read fails. -/
def envContactFail : Env := { e2eEnv with crm := crmContactFail }

/-- End-to-end environment but the downloaded audio has 9999 bytes. -/
def envSmallAudio : Env := { e2eEnv with download := some 9999 }

/-- A 4-character transcript. -/
def shortTranscript : Transcript :=
  { full_text := "Алло", speakers := [], duration_seconds := 3 }

/-- End-to-end environment but the transcript is 4 characters long. -/
def envShortTranscript : Env := { e2eEnv with transcribe := some shortTranscript }

/-! ## Theorems: idempotency guard -/

/-- One guard call never leaves more than `cap + 1` keys in the set. -/
theorem checkAndMark_card_le (cap : Nat) (s : Finset String) (k : String)
    (h : s.card ≤ cap + 1) : ((checkAndMark cap s k).2).card ≤ cap + 1 := by
  unfold checkAndMark
  by_cases hk : k ∈ s
  · simpa [hk]
  · by_cases hc : cap < s.card
    · simp [hk, hc]
    · rw [if_neg hk, if_neg hc]
      have h1 : (insert k s).card ≤ s.card + 1 := Finset.card_insert_le k s
      show (insert k s).card ≤ cap + 1
      omega

/-- The capacity invariant holds along any sequence of guard calls. -/
theorem dedupRun_card_le (cap : Nat) (ks : List String) :
    (dedupRun cap ks).card ≤ cap + 1 := by
  unfold dedupRun
  have aux : ∀ (l : List String) (s : Finset String), s.card ≤ cap + 1 →
      (l.foldl (fun s k => (checkAndMark cap s k).2) s).card ≤ cap + 1 := by
    intro l
    induction l with
    | nil => intro s hs; simpa
    | cons a t ih =>
      intro s hs
      exact ih _ (checkAndMark_card_le cap s a hs)
  exact aux ks ∅ (by simp)

/-- C5: for any key `k` not yet in the guard's set (in particular for any
key at all when the guard starts from its empty initial set), calling
`is_already_processed` twice in sequence yields `false` on the first call
and `true` on the second. -/
theorem check_and_mark_twice (s : Finset String) (k : String) (h : k ∉ s) :
    (isAlreadyProcessed s k).1 = false
    ∧ (isAlreadyProcessed (isAlreadyProcessed s k).2 k).1 = true := by
  unfold isAlreadyProcessed checkAndMark
  by_cases hc : 1000 < s.card
  · simp [h, hc]
  · simp [h, hc]

/-- Witness for C5: a fresh guard, key "url-1". -/
theorem check_and_mark_twice_witness :
    (isAlreadyProcessed ∅ "url-1").1 = false
    ∧ (isAlreadyProcessed (isAlreadyProcessed ∅ "url-1").2 "url-1").1 = true :=
  check_and_mark_twice ∅ "url-1" (by simp)

/-- C6: when an unseen key arrives and the set exceeds the capacity, the
whole set is cleared before the key is inserted; the set size stays below
`cap + 1` along any call sequence from the initial empty set; the key just
inserted is always a member afterwards; and the two deployed guards are the
capacity-1000 and capacity-5000 instances. -/
theorem dedup_capacity_bound (cap : Nat) (s : Finset String) (k : String)
    (hk : k ∉ s) (hcap : cap < s.card) :
    (checkAndMark cap s k).2 = {k}
    ∧ (∀ ks : List String, (dedupRun cap ks).card ≤ cap + 1)
    ∧ (∀ (t : Finset String) (j : String), j ∈ (checkAndMark cap t j).2)
    ∧ (∀ (t : Finset String) (j : String),
        isAlreadyProcessed t j = checkAndMark 1000 t j
        ∧ geodesistDedup t j = checkAndMark 5000 t j) := by
  refine ⟨?_, dedupRun_card_le cap, ?_, fun t j => ⟨rfl, rfl⟩⟩
  · unfold checkAndMark
    simp [hk, hcap]
  · intro t j
    unfold checkAndMark
    by_cases hj : j ∈ t
    · simp [hj]
    · by_cases hc : cap < t.card
      · simp [hj, hc]
      · simp [hj, hc]

/-- Witness for C6: capacity 1, two seen keys, unseen key "c". -/
theorem dedup_capacity_bound_witness :
    (checkAndMark 1 {"a", "b"} "c").2 = {"c"}
    ∧ "c" ∈ (checkAndMark 1 {"a", "b"} "c").2 := by
  have h := dedup_capacity_bound 1 {"a", "b"} "c" (by decide) (by decide)
  exact ⟨h.1, h.2.2.1 {"a", "b"} "c"⟩

/-! ## Theorems: speaker-role classifier -/

/-- Looking up a key in an association list built by tagging each list
element with a function value returns that function value. -/
theorem lookup_map_self (f : String → String) :
    ∀ (ls : List String) (l : String), l ∈ ls →
      (ls.map (fun x => (x, f x))).lookup l = some (f l) := by
  intro ls
  induction ls with
  | nil => intro l h; cases h
  | cons a t ih =>
    intro l h
    by_cases hl : l = a
    · subst hl
      simp [List.lookup]
    · have hmem : l ∈ t := by
        rcases List.mem_cons.mp h with h1 | h1
        · exact absurd h1 hl
        · exact h1
      have hbeq : (l == a) = false := beq_eq_false_iff_ne.mpr hl
      simp [List.lookup, hbeq, ih l hmem]

/-- C8: the scoring loop assigns a label "Менеджер" (Agent) exactly when
its agent-keyword score strictly exceeds its customer-keyword score over
the concatenated case-folded utterance text, and "Клиент" (Customer)
otherwise; concretely, "A" uttering a greeting plus a price offer is
assigned Agent and "B" uttering a need statement is assigned Customer. -/
theorem keyword_scoring_rule (speakers : List Speaker) (l : String)
    (h : l ∈ speakerLabels speakers) :
    ((scoredRoles speakers).lookup l = some "Менеджер"
      ↔ clientScore speakers l < managerScore speakers l)
    ∧ ((scoredRoles speakers).lookup l = some "Клиент"
      ↔ ¬ clientScore speakers l < managerScore speakers l)
    ∧ identifyRoles exC8 = [("A", "Менеджер"), ("B", "Клиент")] := by
  have hb : (scoredRoles speakers).lookup l = some (scoredRoleOf speakers l) :=
    lookup_map_self (scoredRoleOf speakers) (speakerLabels speakers) l h
  have hne : ("Клиент" : String) ≠ "Менеджер" := by decide
  refine ⟨?_, ?_, by decide⟩
  · rw [hb]
    unfold scoredRoleOf
    by_cases hc : clientScore speakers l < managerScore speakers l
    · simp [hc]
    · simp [hc, hne]
  · rw [hb]
    unfold scoredRoleOf
    by_cases hc : clientScore speakers l < managerScore speakers l
    · simp [hc, hne.symm]
    · simp [hc]

/-- Witness for C8, at the concrete two-speaker example. -/
theorem keyword_scoring_rule_witness :
    ((scoredRoles exC8).lookup "A" = some "Менеджер"
      ↔ clientScore exC8 "A" < managerScore exC8 "A")
    ∧ ((scoredRoles exC8).lookup "A" = some "Клиент"
      ↔ ¬ clientScore exC8 "A" < managerScore exC8 "A")
    ∧ identifyRoles exC8 = [("A", "Менеджер"), ("B", "Клиент")] :=
  keyword_scoring_rule exC8 "A" (by decide)

/-- C4 counterexample: two speakers with identical role-neutral text where
label "B" speaks first.  The scoring is degenerate (no label scores as
Agent), the override fires, yet the earliest-speaking label "B" is assigned
Customer and the alphabetically-first label "A" is assigned Agent — the
override sorts labels alphabetically, not by first-utterance time. -/
theorem temporal_tiebreak_counterexample :
    (speakerLabels exC4).length = 2
    ∧ ((scoredRoles exC4).map Prod.snd).count "Менеджер" ≠ 1
    ∧ exC4.map Speaker.label = ["B", "A"]
    ∧ exC4.map Speaker.start_ms = [0, 200]
    ∧ (identifyRoles exC4).lookup "B" = some "Клиент"
    ∧ (identifyRoles exC4).lookup "A" = some "Менеджер" := by decide

/-- C4 amended: in the degenerate two-label case the override assigns the
label that sorts first in code-point (alphabetical) order the role
"Менеджер" (Agent) and the other label "Клиент" (Customer), keeping the
dict insertion order of the entries. -/
theorem alphabetical_tiebreak (speakers : List Speaker) (l1 l2 : String)
    (h : speakerLabels speakers = [l1, l2])
    (hdeg : ((scoredRoles speakers).map Prod.snd).count "Менеджер" ≠ 1) :
    identifyRoles speakers =
      if strLt l2 l1 then [(l1, "Клиент"), (l2, "Менеджер")]
      else [(l1, "Менеджер"), (l2, "Клиент")] := by
  have hsr : scoredRoles speakers =
      [(l1, scoredRoleOf speakers l1), (l2, scoredRoleOf speakers l2)] := by
    unfold scoredRoles
    rw [h]
    rfl
  have hlen : (scoredRoles speakers).length = 2 := by rw [hsr]; rfl
  unfold identifyRoles
  rw [if_pos ⟨hlen, hdeg⟩, hsr]
  rfl

/-- Witness for the amended C4 at the concrete example. -/
theorem alphabetical_tiebreak_witness :
    identifyRoles exC4 =
      if strLt "A" "B" then [("B", "Клиент"), ("A", "Менеджер")]
      else [("B", "Менеджер"), ("A", "Клиент")] :=
  alphabetical_tiebreak exC4 "B" "A" (by decide) (by decide)

/-- Every value the scoring loop writes is "Менеджер" or "Клиент". -/
theorem scored_snd_cases (speakers : List Speaker) :
    ∀ r ∈ (scoredRoles speakers).map Prod.snd,
      r = "Менеджер" ∨ r = "Клиент" := by
  intro r hr
  rcases List.mem_map.mp hr with ⟨p, hp, hpr⟩
  rcases List.mem_map.mp hp with ⟨l, _, hlp⟩
  subst hlp
  subst hpr
  unfold scoredRoleOf
  by_cases hc : clientScore speakers l < managerScore speakers l
  · left; simp [hc]
  · right; simp [hc]

/-- In a list whose entries are all "Менеджер" or "Клиент", the two counts
add up to the length. -/
theorem count_roles_add (rs : List String)
    (h : ∀ r ∈ rs, r = "Менеджер" ∨ r = "Клиент") :
    rs.count "Менеджер" + rs.count "Клиент" = rs.length := by
  induction rs with
  | nil => rfl
  | cons a t ih =>
    have iht := ih (fun r hr => h r (List.mem_cons_of_mem a hr))
    have hb1 : (("Менеджер" : String) == "Клиент") = false := by decide
    have hb2 : (("Клиент" : String) == "Менеджер") = false := by decide
    rcases h a (List.mem_cons_self a t) with ha | ha <;> subst ha <;>
      simp [List.count_cons, hb1, hb2] <;> omega

/-- C9: the role assignment is total over the distinct labels of the
utterance list (its keys are exactly `speakerLabels`, in order); with
exactly two distinct labels the result holds exactly one "Менеджер" and
one "Клиент"; with more than two distinct labels no override is applied
and the assignment is exactly the scored result. -/
theorem role_assignment_totality (speakers : List Speaker) :
    (identifyRoles speakers).map Prod.fst = speakerLabels speakers
    ∧ ((speakerLabels speakers).length = 2 →
        ((identifyRoles speakers).map Prod.snd).count "Менеджер" = 1
        ∧ ((identifyRoles speakers).map Prod.snd).count "Клиент" = 1)
    ∧ (2 < (speakerLabels speakers).length →
        identifyRoles speakers = scoredRoles speakers) := by
  have hfst : (scoredRoles speakers).map Prod.fst = speakerLabels speakers := by
    unfold scoredRoles
    simp [List.map_map, Function.comp_def]
  have hlen : (scoredRoles speakers).length = (speakerLabels speakers).length := by
    unfold scoredRoles
    simp
  simp only [identifyRoles]
  by_cases hcond : (scoredRoles speakers).length = 2
      ∧ ((scoredRoles speakers).map Prod.snd).count "Менеджер" ≠ 1
  · rw [if_pos hcond]
    obtain ⟨h2, hcnt⟩ := hcond
    obtain ⟨a, b, hab⟩ := List.length_eq_two.mp h2
    rcases a with ⟨a1, a2⟩
    rcases b with ⟨b1, b2⟩
    rw [hab] at hfst ⊢
    refine ⟨?_, ?_, ?_⟩
    · by_cases hlt : strLt b1 a1
      · simpa [applyOverride, hlt] using hfst
      · simpa [applyOverride, hlt] using hfst
    · intro _
      by_cases hlt : strLt b1 a1
      · simp [applyOverride, hlt]
      · simp [applyOverride, hlt]
    · intro hgt
      exfalso
      omega
  · rw [if_neg hcond]
    refine ⟨hfst, ?_, fun _ => rfl⟩
    intro h2lab
    have h2 : (scoredRoles speakers).length = 2 := by rw [hlen]; exact h2lab
    have hcnt : ((scoredRoles speakers).map Prod.snd).count "Менеджер" = 1 := by
      by_contra hne
      exact hcond ⟨h2, hne⟩
    have hsum := count_roles_add _ (scored_snd_cases speakers)
    have hlen2 : ((scoredRoles speakers).map Prod.snd).length = 2 := by
      simp [h2]
    refine ⟨hcnt, ?_⟩
    omega

/-- Witness for C9 at the concrete two-speaker example. -/
theorem role_assignment_totality_witness :
    ((identifyRoles exC8).map Prod.snd).count "Менеджер" = 1
    ∧ ((identifyRoles exC8).map Prod.snd).count "Клиент" = 1 :=
  (role_assignment_totality exC8).2.1 (by decide)

/-! ## Theorems: contact-to-deal resolution -/

/-- When every status fetch on a list succeeds, the scan of
`get_active_lead_for_contact` returns the head of the open sublist. -/
theorem firstActive_eq_head (crm : CRM) :
    ∀ ls : List Nat, (∀ id ∈ ls, (crm.status id).isSome = true) →
      firstActive crm ls = (ls.filter (statusOpen crm)).head? := by
  intro ls
  induction ls with
  | nil => intro _; rfl
  | cons a t ih =>
    intro h
    obtain ⟨sid, hsid⟩ :=
      Option.isSome_iff_exists.mp (h a (List.mem_cons_self a t))
    have ht := ih (fun id hid => h id (List.mem_cons_of_mem a hid))
    unfold firstActive
    rw [hsid]
    by_cases hcl : sid ∈ CLOSED_STATUSES
    · have hopen : statusOpen crm a = false := by
        unfold statusOpen
        rw [hsid]
        simp [hcl]
      simp [hcl, List.filter_cons, hopen, ht]
    · have hopen : statusOpen crm a = true := by
        unfold statusOpen
        rw [hsid]
        simp [hcl]
      simp [hcl, List.filter_cons, hopen]

/-- Any lead the scan returns is an open linked lead. -/
theorem firstActive_mem_open (crm : CRM) :
    ∀ (ls : List Nat) (x : Nat), firstActive crm ls = some x →
      x ∈ ls.filter (statusOpen crm) := by
  intro ls
  induction ls with
  | nil => intro x hx; cases hx
  | cons a t ih =>
    intro x hx
    simp only [firstActive] at hx
    cases hst : crm.status a with
    | none =>
      simp only [hst] at hx
      have hopen : statusOpen crm a = false := by
        unfold statusOpen
        rw [hst]
      simp [List.filter_cons, hopen]
      have := ih x hx
      simpa using this
    | some sid =>
      simp only [hst] at hx
      by_cases hcl : sid ∈ CLOSED_STATUSES
      · rw [if_pos hcl] at hx
        have hopen : statusOpen crm a = false := by
          unfold statusOpen
          rw [hst]
          simp [hcl]
        simp [List.filter_cons, hopen]
        have := ih x hx
        simpa using this
      · rw [if_neg hcl] at hx
        have hax : a = x := by
          injection hx
        subst hax
        have hopen : statusOpen crm a = true := by
          unfold statusOpen
          rw [hst]
          simp [hcl]
        simp [List.filter_cons, hopen]

/-- C1: with the CRM reads succeeding, resolution for a contact returns
the first linked deal whose status is not one of the two terminal codes
and performs zero deal-creation calls when such an open deal exists;
when the contact has no linked deals or every linked deal is closed, it
performs exactly one deal-creation call and returns the new deal's id. -/
theorem resolution_returns_first_open (crm : CRM)
    (hl : crm.linksOk = true)
    (hs : ∀ id ∈ crm.links, (crm.status id).isSome = true)
    (hc : crm.contact.isSome = true) :
    (∀ id : Nat, (openLinks crm).head? = some id →
      get_or_create_lead_for_contact crm = Except.ok (some id, 0))
    ∧ (openLinks crm = [] → ∀ nid : Nat, crm.createResult = some nid →
      get_or_create_lead_for_contact crm = Except.ok (some nid, 1)) := by
  have hga : get_active_lead_for_contact crm = (openLinks crm).head? := by
    unfold get_active_lead_for_contact
    rw [hl]
    simp [firstActive_eq_head crm crm.links hs, openLinks]
  obtain ⟨nm, hnm⟩ := Option.isSome_iff_exists.mp hc
  constructor
  · intro id hid
    unfold get_or_create_lead_for_contact
    rw [hga, hid]
  · intro hempty nid hnid
    unfold get_or_create_lead_for_contact
    rw [hga, hempty]
    simp [hnm, hnid]

/-- Witness for C1: statuses `[open, closed, closed]` give the open deal
with zero creations; statuses `[closed, closed]` give one creation
returning the new deal `#9002`. -/
theorem resolution_returns_first_open_witness :
    get_or_create_lead_for_contact crmOpenMix = Except.ok (some 11, 0)
    ∧ get_or_create_lead_for_contact crmAllClosed = Except.ok (some 9002, 1) :=
  ⟨(resolution_returns_first_open crmOpenMix rfl (by decide) rfl).1 11 rfl,
   (resolution_returns_first_open crmAllClosed rfl (by decide) rfl).2 rfl 9002 rfl⟩

/-- C10: a failed status fetch skips that deal and the scan continues with
the rest; when every status fetch fails the scan finds nothing, so
resolution proceeds to one deal-creation call and returns its result. -/
theorem failed_status_fetch_skips (crm : CRM) (id : Nat) (rest : List Nat)
    (h : crm.status id = none)
    (hall : ∀ j ∈ crm.links, crm.status j = none)
    (hl : crm.linksOk = true)
    (hc : crm.contact.isSome = true) :
    firstActive crm (id :: rest) = firstActive crm rest
    ∧ get_active_lead_for_contact crm = none
    ∧ get_or_create_lead_for_contact crm = Except.ok (crm.createResult, 1) := by
  have hnone : ∀ ls : List Nat, (∀ j ∈ ls, crm.status j = none) →
      firstActive crm ls = none := by
    intro ls
    induction ls with
    | nil => intro _; rfl
    | cons a t ih =>
      intro hls
      simp only [firstActive, hls a (List.mem_cons_self a t)]
      exact ih (fun j hj => hls j (List.mem_cons_of_mem a hj))
  have hga : get_active_lead_for_contact crm = none := by
    unfold get_active_lead_for_contact
    rw [hl]
    simp [hnone crm.links hall]
  obtain ⟨nm, hnm⟩ := Option.isSome_iff_exists.mp hc
  refine ⟨?_, hga, ?_⟩
  · simp only [firstActive, h]
  · unfold get_or_create_lead_for_contact
    rw [hga]
    simp [hnm]

/-- Witness for C10: a single linked deal whose status fetch fails. -/
theorem failed_status_fetch_skips_witness :
    get_active_lead_for_contact crmAllFetchFail = none
    ∧ get_or_create_lead_for_contact crmAllFetchFail
        = Except.ok (crmAllFetchFail.createResult, 1) := by
  have h := failed_status_fetch_skips crmAllFetchFail 31 [] rfl
    (by intro j hj; rfl) rfl rfl
  exact ⟨h.2.1, h.2.2⟩

/-! ## Theorems: pipeline orchestration -/

/-- Once resolution has produced a lead, every later branch of the run
keeps it as the note target. -/
theorem targetLead_of_resolved (env : Env) (leadId : Nat)
    (hdup : env.alreadyProcessed = false)
    (hres : (resolveTarget env).1 = Except.ok leadId) :
    (process_call env).targetLead = some leadId := by
  simp only [process_call, hdup, hres, Bool.false_eq_true, if_false]
  split
  · rfl
  · split
    · rfl
    · split
      · rfl
      · split
        · rfl
        · split
          · rfl
          · split
            · split
              · split
                · rfl
                · rfl
              · rfl
            · rfl

/-- C7: an admitted run whose downloaded audio is below 10000 bytes stops
gracefully before the transcription collaborator is invoked, with no note
and no notification; an admitted run whose transcript text is shorter than
50 characters stops gracefully after transcription and before role
assignment, with no note and no notification. -/
theorem pipeline_gates (env : Env) (leadId n : Nat)
    (hdup : env.alreadyProcessed = false)
    (hres : (resolveTarget env).1 = Except.ok leadId)
    (hurl : env.urlUploaded = false)
    (hdl : env.download = some n) :
    (n < 10000 →
      (process_call env).outcome = Outcome.abortSmallAudio
      ∧ (process_call env).transcribeCalled = false
      ∧ (process_call env).noteWritten = false
      ∧ (process_call env).notificationSent = false)
    ∧ (∀ t : Transcript, 10000 ≤ n → env.transcribe = some t →
        t.full_text.length < 50 →
      (process_call env).outcome = Outcome.abortShortTranscript
      ∧ (process_call env).transcribeCalled = true
      ∧ (process_call env).rolesAssigned = false
      ∧ (process_call env).noteWritten = false
      ∧ (process_call env).notificationSent = false) := by
  constructor
  · intro hn
    refine ⟨?_, ?_, ?_, ?_⟩ <;>
      simp [process_call, hdup, hres, hurl, hdl, hn, baseResult]
  · intro t h10 ht hlen
    have hnlt : ¬ n < 10000 := Nat.not_lt.mpr h10
    refine ⟨?_, ?_, ?_, ?_, ?_⟩ <;>
      simp [process_call, hdup, hres, hurl, hdl, hnlt, ht, hlen, baseResult]

/-- Witness for C7: 9999-byte audio aborts before transcription; a
4-character transcript aborts before role assignment. -/
theorem pipeline_gates_witness :
    ((process_call envSmallAudio).outcome = Outcome.abortSmallAudio
      ∧ (process_call envSmallAudio).transcribeCalled = false
      ∧ (process_call envSmallAudio).noteWritten = false
      ∧ (process_call envSmallAudio).notificationSent = false)
    ∧ ((process_call envShortTranscript).outcome = Outcome.abortShortTranscript
      ∧ (process_call envShortTranscript).transcribeCalled = true
      ∧ (process_call envShortTranscript).rolesAssigned = false
      ∧ (process_call envShortTranscript).noteWritten = false
      ∧ (process_call envShortTranscript).notificationSent = false) :=
  ⟨(pipeline_gates envSmallAudio 9002 9999 rfl rfl rfl rfl).1 (by decide),
   (pipeline_gates envShortTranscript 9002 42600 rfl rfl rfl rfl).2
     shortTranscript (by decide) rfl (by decide)⟩

set_option maxRecDepth 8192 in
/-- C2 counterexample: the contact's linked deals cannot be read (the links
listing fails), an open deal `#9001` is in fact linked, yet resolution does
not fail: it creates and returns a brand-new deal `#9002` and the run
proceeds to audio work and writes the note there. -/
theorem links_failure_counterexample :
    crmLinksFail.linksOk = false
    ∧ get_or_create_lead_for_contact crmLinksFail = Except.ok (some 9002, 1)
    ∧ (process_call envLinksFail).targetLead = some 9002
    ∧ (process_call envLinksFail).transcribeCalled = true
    ∧ (process_call envLinksFail).noteWritten = true :=
  ⟨rfl, rfl, rfl, rfl, rfl⟩

/-- C2 amended: when the referenced contact cannot be read, or when no
linked deal is usable and deal creation fails, the run terminates before
any audio work with no note and no notification (a failure listing the
linked deals is instead swallowed and resolution falls back to creating a
new deal); and resolution never targets a closed linked deal or the
contact itself — any note target is an open linked deal or the freshly
created deal. -/
theorem resolution_failure_policy (env : Env)
    (hct : env.isContact = true) (hdup : env.alreadyProcessed = false) :
    (env.crm.contact = none →
      (process_call env).outcome = Outcome.failed "resolution"
      ∧ (process_call env).transcribeCalled = false
      ∧ (process_call env).noteWritten = false
      ∧ (process_call env).notificationSent = false)
    ∧ (get_active_lead_for_contact env.crm = none →
       env.crm.createResult = none →
      ((process_call env).outcome = Outcome.resolutionNoLead
        ∨ (process_call env).outcome = Outcome.failed "resolution")
      ∧ (process_call env).transcribeCalled = false
      ∧ (process_call env).noteWritten = false
      ∧ (process_call env).notificationSent = false)
    ∧ (∀ id : Nat, (process_call env).targetLead = some id →
        id ≠ env.entityId
        ∧ (id ∈ openLinks env.crm ∨ env.crm.createResult = some id)) := by
  refine ⟨?_, ?_, ?_⟩
  · intro hcn
    have hres : resolveTarget env = (Except.error (Outcome.failed "resolution"), 0) := by
      simp only [resolveTarget, hct, hcn, if_true]
    refine ⟨?_, ?_, ?_, ?_⟩ <;>
      simp [process_call, hdup, hres, baseResult]
  · intro hga hcr
    cases hcn : env.crm.contact with
    | none =>
      have hres : resolveTarget env = (Except.error (Outcome.failed "resolution"), 0) := by
        simp only [resolveTarget, hct, hcn, if_true]
      refine ⟨Or.inr ?_, ?_, ?_, ?_⟩ <;>
        simp [process_call, hdup, hres, baseResult]
    | some nm =>
      have hgoc : get_or_create_lead_for_contact env.crm = Except.ok (none, 1) := by
        simp only [get_or_create_lead_for_contact, hga, hcn, hcr]
      have hres : resolveTarget env = (Except.error Outcome.resolutionNoLead, 1) := by
        simp only [resolveTarget, hct, hcn, hgoc, if_true]
      refine ⟨Or.inl ?_, ?_, ?_, ?_⟩ <;>
        simp [process_call, hdup, hres, baseResult]
  · intro id hid
    cases hcn : env.crm.contact with
    | none =>
      have hres : resolveTarget env = (Except.error (Outcome.failed "resolution"), 0) := by
        simp only [resolveTarget, hct, hcn, if_true]
      simp [process_call, hdup, hres, baseResult] at hid
    | some nm =>
      cases hga : get_active_lead_for_contact env.crm with
      | some aid =>
        have hgoc : get_or_create_lead_for_contact env.crm = Except.ok (some aid, 0) := by
          simp only [get_or_create_lead_for_contact, hga]
        by_cases heq : aid = env.entityId
        · have hres : resolveTarget env = (Except.error Outcome.resolutionNoLead, 0) := by
            simp only [resolveTarget, hct, hcn, hgoc, if_true, if_pos heq]
          simp [process_call, hdup, hres, baseResult] at hid
        · have hres1 : (resolveTarget env).1 = Except.ok aid := by
            simp only [resolveTarget, hct, hcn, hgoc, if_true, if_neg heq]
          have htl := targetLead_of_resolved env aid hdup hres1
          rw [htl] at hid
          injection hid with hid2
          subst hid2
          refine ⟨heq, Or.inl ?_⟩
          cases hlo : env.crm.linksOk with
          | false =>
            unfold get_active_lead_for_contact at hga
            rw [hlo] at hga
            simp at hga
          | true =>
            unfold get_active_lead_for_contact at hga
            rw [hlo] at hga
            simp only [if_true] at hga
            exact firstActive_mem_open env.crm env.crm.links aid hga
      | none =>
        cases hcr : env.crm.createResult with
        | none =>
          have hgoc : get_or_create_lead_for_contact env.crm = Except.ok (none, 1) := by
            simp only [get_or_create_lead_for_contact, hga, hcn, hcr]
          have hres : resolveTarget env = (Except.error Outcome.resolutionNoLead, 1) := by
            simp only [resolveTarget, hct, hcn, hgoc, if_true]
          simp [process_call, hdup, hres, baseResult] at hid
        | some cid =>
          have hgoc : get_or_create_lead_for_contact env.crm = Except.ok (some cid, 1) := by
            simp only [get_or_create_lead_for_contact, hga, hcn, hcr]
          by_cases heq : cid = env.entityId
          · have hres : resolveTarget env = (Except.error Outcome.resolutionNoLead, 1) := by
              simp only [resolveTarget, hct, hcn, hgoc, if_true, if_pos heq]
            simp [process_call, hdup, hres, baseResult] at hid
          · have hres1 : (resolveTarget env).1 = Except.ok cid := by
              simp only [resolveTarget, hct, hcn, hgoc, if_true, if_neg heq]
            have htl := targetLead_of_resolved env cid hdup hres1
            rw [htl] at hid
            injection hid with hid2
            subst hid2
            exact ⟨heq, Or.inr rfl⟩

/-- Witness for the amended C2: the contact read fails, the run terminates
with no audio work, no note, no notification. -/
theorem resolution_failure_policy_witness :
    (process_call envContactFail).outcome = Outcome.failed "resolution"
    ∧ (process_call envContactFail).transcribeCalled = false
    ∧ (process_call envContactFail).noteWritten = false
    ∧ (process_call envContactFail).notificationSent = false :=
  (resolution_failure_policy envContactFail rfl rfl).1 rfl

set_option maxRecDepth 8192 in
/-- C3: in the end-to-end scenario every collaborator succeeds and the run
persists the note on the freshly created deal `#9002`, but the
notification step looks up `send_call_analysis` on `TelegramService`,
which defines no such method, so the run fails at the notify stage:
`Persisted` is reached, `Notified` never is, and no notification is sent. -/
theorem notify_method_missing :
    telegramMethods.contains notifyMethodName = false
    ∧ (process_call e2eEnv).reachedPersisted = true
    ∧ (process_call e2eEnv).noteWritten = true
    ∧ (process_call e2eEnv).outcome = Outcome.failed "notify"
    ∧ (process_call e2eEnv).reachedNotified = false
    ∧ (process_call e2eEnv).notificationSent = false
    ∧ (process_call e2eEnv).targetLead = some 9002
    ∧ (process_call e2eEnv).createCalls = 1 :=
  ⟨rfl, rfl, rfl, rfl, rfl, rfl, rfl, rfl⟩

end VoiceTranscription
